import Mathlib

/-!
Verification of the Slack PM-agent bridge (`scripts/pm_slack_bridge.py`).

The script is a linear event handler: on an `app_mention` event it checks a
halt flag, sends an acknowledgment, invokes the PM agent, writes the agent's
summary to a temporary file and uploads it, reporting failures of the guarded
steps back to the chat.  We embed the handler as a pure function from the
event payload, the agent's result and an injected failure model for each
external call to the trace of external calls made plus the handler's outcome
(normal return or an uncaught exception).
-/

/-- A Python exception, as far as the handler distinguishes them: a `KeyError`
for a missing dictionary key, or a generic exception carrying `str(e)`. -/
inductive Exc where
  | keyError (key : String)
  | err (msg : String)
deriving DecidableEq, Repr

/-- How a handler invocation ends: a normal return, or an exception
propagating out of the handler. -/
inductive Outcome where
  | returned
  | raised (e : Exc)
deriving DecidableEq, Repr

/-- One external call made by the handler, in order.  `say` is a chat message
send; `agentCall` is `pm_agent.initiate_chat(text, config with max_turns)`;
`tmpWrite` is the write+flush of the summary into the named temporary file;
`upload` is `files_upload` (the `file=tmp.name` argument is modelled by the
content written to that temporary file); `tmpDelete` would be a removal of the
temporary file; `logInfo`/`logError` are the logger calls. -/
inductive Effect where
  | say (msg : String)
  | agentCall (text : String) (maxTurns : Nat)
  | tmpWrite (content : String)
  | upload (channels : String) (content : String) (title : String) (comment : String)
  | tmpDelete (content : String)
  | logInfo (msg : String)
  | logError (msg : String)
deriving DecidableEq, Repr

/-- The `"event"` object of the mention payload; `body["event"]["text"]` and
`body["event"]["user"]` raise `KeyError` when the key is absent, modelled by
`Option`. -/
structure SlackEvent where
  text : Option String
  user : Option String
deriving DecidableEq, Repr

/-- The event payload `body`; `body["event"]` raises `KeyError` when absent. -/
structure Body where
  event : Option SlackEvent
deriving DecidableEq, Repr

/-- Injected outcomes for the external calls the handler makes: each field,
when `some m`, makes the corresponding call raise a generic exception whose
`str` is `m` (after the call has been issued).  `none` means the call
succeeds. -/
structure FailureModel where
  haltSayRaises : Option String
  ackSayRaises : Option String
  writeRaises : Option String
  uploadRaises : Option String
  errSayRaises : Option String
deriving DecidableEq, Repr

/-- The failure model in which every external call succeeds. -/
def noFailures : FailureModel := ⟨none, none, none, none, none⟩

/-- `":octagonal_sign: Pipeline halted (\`HALT_PIPELINE=true\`)."` -/
def haltAdvisory : String := ":octagonal_sign: Pipeline halted (`HALT_PIPELINE=true`)."

/-- The acknowledgment message `f":seedling: Working on spec for <@{user}> ..."`. -/
def ackMsgOf (user : String) : String :=
  ":seedling: Working on spec for <@" ++ user ++ "> ..."

/-- The error message `f":x: Error generating spec: {str(e)}"`. -/
def errMsgOf (e : String) : String :=
  ":x: Error generating spec: " ++ e

/-- The fixed `initial_comment` of the upload. -/
def uploadComment : String := "Here is the generated spec.md :page_facing_up:"

/-- The `except Exception` branch of the handler: given the trace produced so
far and the caught exception's description, send the error message, log the
error, return.  A failure of the error send itself propagates. -/
def exceptBranch (pre : List Effect) (e : String) (fm : FailureModel) :
    List Effect × Outcome :=
  match fm.errSayRaises with
  | some m => (pre ++ [Effect.say (errMsgOf e)], Outcome.raised (Exc.err m))
  | none =>
      (pre ++ [Effect.say (errMsgOf e), Effect.logError ("Error: " ++ e)],
       Outcome.returned)

/-- The `handle_mention` handler of `pm_slack_bridge.py`, step for step: the
`HALT` short-circuit, the `body["event"]["text"]` / `["user"]` lookups, the
acknowledgment send (outside the `try`), then the `try` block containing the
agent call, the temporary-file write, the upload and the success log, with
the `except` branch sending and logging the error.  The temporary file is
opened with `delete=False` and never removed, so no `tmpDelete` effect is
ever issued. -/
def handle_mention (HALT : Bool) (CHANNEL : String) (body : Body)
    (agent : Except String String) (fm : FailureModel) :
    List Effect × Outcome :=
  if HALT then
    match fm.haltSayRaises with
    | some m => ([Effect.say haltAdvisory], Outcome.raised (Exc.err m))
    | none => ([Effect.say haltAdvisory], Outcome.returned)
  else
    match body.event with
    | none => ([], Outcome.raised (Exc.keyError "event"))
    | some ev =>
      match ev.text with
      | none => ([], Outcome.raised (Exc.keyError "text"))
      | some text =>
        match ev.user with
        | none => ([], Outcome.raised (Exc.keyError "user"))
        | some user =>
          match fm.ackSayRaises with
          | some m => ([Effect.say (ackMsgOf user)], Outcome.raised (Exc.err m))
          | none =>
            let ack := [Effect.say (ackMsgOf user)]
            match agent with
            | Except.error e => exceptBranch (ack ++ [Effect.agentCall text 4]) e fm
            | Except.ok spec_md =>
              match fm.writeRaises with
              | some m =>
                  exceptBranch
                    (ack ++ [Effect.agentCall text 4, Effect.tmpWrite spec_md]) m fm
              | none =>
                match fm.uploadRaises with
                | some m =>
                    exceptBranch
                      (ack ++ [Effect.agentCall text 4, Effect.tmpWrite spec_md,
                        Effect.upload CHANNEL spec_md "spec.md" uploadComment]) m fm
                | none =>
                    (ack ++ [Effect.agentCall text 4, Effect.tmpWrite spec_md,
                      Effect.upload CHANNEL spec_md "spec.md" uploadComment,
                      Effect.logInfo "spec.md uploaded."],
                     Outcome.returned)

/-- The environment variables the script reads at startup. -/
structure Env where
  SLACK_BOT_TOKEN : Option String
  SLACK_APP_TOKEN : Option String
  SLACK_SIGNING_SECRET : Option String
  BUILD_BOT_CHANNEL : Option String
  HALT_PIPELINE : Option String
deriving DecidableEq, Repr

/-- The module-level configuration derived from the environment. -/
structure Config where
  botToken : String
  appToken : String
  signSecret : String
  channel : String
  halt : Bool
deriving DecidableEq, Repr

/-- Python's `str.lower()` on one character (ASCII case mapping; the halt
flag values the script compares are ASCII). -/
def lowerChar (c : Char) : Char :=
  if 'A' ≤ c && c ≤ 'Z' then Char.ofNat (c.toNat + 32) else c

/-- Python's `str.lower()` (ASCII case mapping). -/
def lowerStr (s : String) : String := ⟨s.data.map lowerChar⟩

/-- The module-level environment loading: `os.environ["..."]` raises
`KeyError` for each required variable in the order the lines execute;
`BUILD_BOT_CHANNEL` defaults to `"#build-bot"` via `os.getenv`;
`HALT_PIPELINE` defaults to `"false"` and is compared lower-cased against
`"true"`. -/
def startupConfig (env : Env) : Except Exc Config :=
  match env.SLACK_BOT_TOKEN with
  | none => Except.error (Exc.keyError "SLACK_BOT_TOKEN")
  | some bot =>
    match env.SLACK_APP_TOKEN with
    | none => Except.error (Exc.keyError "SLACK_APP_TOKEN")
    | some app =>
      match env.SLACK_SIGNING_SECRET with
      | none => Except.error (Exc.keyError "SLACK_SIGNING_SECRET")
      | some sec =>
        Except.ok
          (Config.mk bot app sec (env.BUILD_BOT_CHANNEL.getD "#build-bot")
            (lowerStr (env.HALT_PIPELINE.getD "false") == "true"))

/-- One inbound mention event together with the behaviour of the external
world while it is handled. -/
structure EventIn where
  body : Body
  agent : Except String String
  fm : FailureModel

/-- One process run after a successful startup: each event of the run is
handled with the same configuration (the halt flag and channel are read from
module-level constants that nothing mutates). -/
def processRun (cfg : Config) (events : List EventIn) : List (List Effect × Outcome) :=
  events.map fun ei => handle_mention cfg.halt cfg.channel ei.body ei.agent ei.fm

/-- A whole process: startup (which may fail on a missing required variable,
in which case no event is ever handled) followed by the run. -/
def runProcess (env : Env) (events : List EventIn) :
    Except Exc (List (List Effect × Outcome)) :=
  match startupConfig env with
  | Except.error e => Except.error e
  | Except.ok cfg => Except.ok (processRun cfg events)

/-- `listStarts p l` decides whether `p` is an initial segment of `l`. -/
def listStarts : List Char → List Char → Bool
  | [], _ => true
  | _ :: _, [] => false
  | a :: as, b :: bs => a == b && listStarts as bs

/-- `strStarts p m` decides whether the string `m` starts with `p`. -/
def strStarts (p m : String) : Bool := listStarts p.data m.data

/-- Recognizes acknowledgment messages by their fixed leading text. -/
def isAckMsg (m : String) : Bool := strStarts ":seedling: Working on spec for <@" m

/-- Recognizes error messages by their fixed leading text. -/
def isErrMsg (m : String) : Bool := strStarts ":x: Error generating spec: " m

/-- Recognizes the halt advisory by its fixed leading text. -/
def isHaltMsg (m : String) : Bool := strStarts ":octagonal_sign:" m

/-- The chat messages sent in a trace, in order. -/
def saysOf (tr : List Effect) : List String :=
  tr.filterMap fun ef =>
    match ef with
    | Effect.say m => some m
    | _ => none

/-- The uploads issued in a trace: (channels, content, title, comment). -/
def uploadsOf (tr : List Effect) : List (String × String × String × String) :=
  tr.filterMap fun ef =>
    match ef with
    | Effect.upload ch c t cm => some (ch, c, t, cm)
    | _ => none

/-- The agent invocations issued in a trace: (text, max turns). -/
def agentCallsOf (tr : List Effect) : List (String × Nat) :=
  tr.filterMap fun ef =>
    match ef with
    | Effect.agentCall t n => some (t, n)
    | _ => none

/-- The error-log entries issued in a trace. -/
def logErrorsOf (tr : List Effect) : List String :=
  tr.filterMap fun ef =>
    match ef with
    | Effect.logError m => some m
    | _ => none

/-- The temporary-file removals issued in a trace. -/
def tmpDeletesOf (tr : List Effect) : List String :=
  tr.filterMap fun ef =>
    match ef with
    | Effect.tmpDelete c => some c
    | _ => none

/-- Number of acknowledgment messages sent in a trace. -/
def countAckSays (tr : List Effect) : Nat := ((saysOf tr).filter isAckMsg).length

/-- Number of error messages sent in a trace. -/
def countErrSays (tr : List Effect) : Nat := ((saysOf tr).filter isErrMsg).length

/-- Number of halt advisories sent in a trace. -/
def countHaltSays (tr : List Effect) : Nat := ((saysOf tr).filter isHaltMsg).length

/-- The first failure the guarded (`try`-block) part of the handler runs
into, if any: an agent error, else a write failure, else an upload failure. -/
def firstFailure (agent : Except String String) (fm : FailureModel) : Option String :=
  match agent with
  | Except.error e => some e
  | Except.ok _ =>
    match fm.writeRaises with
    | some m => some m
    | none => fm.uploadRaises

/-- A well-formed mention payload carrying both `"text"` and `"user"`. -/
def wfBody (text user : String) : Body := ⟨some ⟨some text, some user⟩⟩

@[simp] theorem isAckMsg_ack (u : String) : isAckMsg (ackMsgOf u) = true := rfl

@[simp] theorem isErrMsg_ack (u : String) : isErrMsg (ackMsgOf u) = false := rfl

@[simp] theorem isHaltMsg_ack (u : String) : isHaltMsg (ackMsgOf u) = false := rfl

@[simp] theorem isErrMsg_err (e : String) : isErrMsg (errMsgOf e) = true := rfl

@[simp] theorem isAckMsg_err (e : String) : isAckMsg (errMsgOf e) = false := rfl

@[simp] theorem isHaltMsg_err (e : String) : isHaltMsg (errMsgOf e) = false := rfl

@[simp] theorem isHaltMsg_halt : isHaltMsg haltAdvisory = true := rfl

@[simp] theorem isAckMsg_halt : isAckMsg haltAdvisory = false := rfl

@[simp] theorem isErrMsg_halt : isErrMsg haltAdvisory = false := rfl

/-- Claim C2: while the halt flag is set, the handler performs exactly one
external call, the fixed advisory send — no acknowledgment, no agent
invocation, no upload — whatever the payload, the agent's behaviour or the
injected failures. -/
theorem claim_C2 (ch : String) (body : Body) (agent : Except String String)
    (fm : FailureModel) :
    (handle_mention true ch body agent fm).1 = [Effect.say haltAdvisory] ∧
    countHaltSays (handle_mention true ch body agent fm).1 = 1 ∧
    countAckSays (handle_mention true ch body agent fm).1 = 0 ∧
    agentCallsOf (handle_mention true ch body agent fm).1 = [] ∧
    uploadsOf (handle_mention true ch body agent fm).1 = [] := by
  cases h : fm.haltSayRaises <;>
    simp [handle_mention, h, countHaltSays, countAckSays, saysOf, agentCallsOf, uploadsOf]

/-- Claim C3: with the halt flag clear, a well-formed event and a successful
agent invocation (and no external failure), the handler's trace is the
acknowledgment, the agent call, the temporary-file write, exactly one upload
of exactly the summary to the configured channel with title "spec.md" and
the fixed initial comment, and the success log; in particular in the
concrete login-flow scenario, where the acknowledgment also mentions U123. -/
theorem claim_C3 :
    (∀ ch text user s : String,
      handle_mention false ch (wfBody text user) (Except.ok s) noFailures
        = ([Effect.say (ackMsgOf user), Effect.agentCall text 4, Effect.tmpWrite s,
            Effect.upload ch s "spec.md" uploadComment, Effect.logInfo "spec.md uploaded."],
           Outcome.returned) ∧
      uploadsOf (handle_mention false ch (wfBody text user) (Except.ok s) noFailures).1
        = [(ch, s, "spec.md", uploadComment)]) ∧
    (handle_mention false "#build-bot"
        (wfBody "@PM-agent draft spec for login flow" "U123")
        (Except.ok "## Login Flow Spec...") noFailures).1
      = [Effect.say (ackMsgOf "U123"),
         Effect.agentCall "@PM-agent draft spec for login flow" 4,
         Effect.tmpWrite "## Login Flow Spec...",
         Effect.upload "#build-bot" "## Login Flow Spec..." "spec.md" uploadComment,
         Effect.logInfo "spec.md uploaded."] ∧
    (∃ p q, ackMsgOf "U123" = p ++ "U123" ++ q) :=
  ⟨fun _ _ _ _ => ⟨rfl, rfl⟩, rfl,
   ⟨":seedling: Working on spec for <@", "> ...", rfl⟩⟩

/-- Claim C4: with the halt flag clear and a well-formed event, when the
agent invocation raises, no upload is issued and exactly one error message is
sent; that message is the fixed error text around `str(e)`, so it contains
the raised error's description. -/
theorem claim_C4 (ch text user e : String) (fm : FailureModel)
    (hack : fm.ackSayRaises = none) :
    countErrSays (handle_mention false ch (wfBody text user) (Except.error e) fm).1 = 1 ∧
    (saysOf (handle_mention false ch (wfBody text user) (Except.error e) fm).1).filter isErrMsg
      = [errMsgOf e] ∧
    (∃ p q, errMsgOf e = p ++ e ++ q) ∧
    uploadsOf (handle_mention false ch (wfBody text user) (Except.error e) fm).1 = [] := by
  obtain ⟨h1, a1, w1, u1, e1⟩ := fm
  simp only at hack
  subst hack
  refine ⟨?_, ?_, ⟨":x: Error generating spec: ", "", by simp [errMsgOf]⟩, ?_⟩ <;>
    cases e1 <;>
      simp [handle_mention, exceptBranch, wfBody, countErrSays, saysOf, uploadsOf]

/-- Witness for claim C4 at a concrete event and error. -/
theorem claim_C4_witness :
    countErrSays (handle_mention false "#build-bot" (wfBody "hi" "U1")
        (Except.error "boom") noFailures).1 = 1 ∧
    (saysOf (handle_mention false "#build-bot" (wfBody "hi" "U1")
        (Except.error "boom") noFailures).1).filter isErrMsg = [errMsgOf "boom"] ∧
    (∃ p q, errMsgOf "boom" = p ++ "boom" ++ q) ∧
    uploadsOf (handle_mention false "#build-bot" (wfBody "hi" "U1")
        (Except.error "boom") noFailures).1 = [] :=
  claim_C4 "#build-bot" "hi" "U1" "boom" noFailures rfl

/-- Claim C6: with the halt flag clear and a well-formed event, the very
first external call of the handler is the single acknowledgment, which
mentions the requesting user; any agent invocation therefore comes after
it. -/
theorem claim_C6 (ch text user : String) (agent : Except String String)
    (fm : FailureModel) :
    (∃ rest, (handle_mention false ch (wfBody text user) agent fm).1
        = Effect.say (ackMsgOf user) :: rest) ∧
    countAckSays (handle_mention false ch (wfBody text user) agent fm).1 = 1 ∧
    (∃ p q, ackMsgOf user = p ++ user ++ q) := by
  obtain ⟨h1, a1, w1, u1, e1⟩ := fm
  refine ⟨?_, ?_, ⟨":seedling: Working on spec for <@", "> ...", rfl⟩⟩ <;>
    cases a1 <;> cases w1 <;> cases u1 <;> cases e1 <;> cases agent <;>
      simp [handle_mention, exceptBranch, wfBody, countAckSays, saysOf]

/-- Counterexample to claim C1 as stated: when the acknowledgment send itself
raises (it sits outside the `try` block), the exception propagates out of the
handler and no user-visible error message and no error log are produced. -/
theorem claim_C1_cex :
    (handle_mention false "#build-bot" (wfBody "hi" "U1") (Except.ok "S")
        ⟨none, some "network down", none, none, none⟩).2
      = Outcome.raised (Exc.err "network down") ∧
    countErrSays (handle_mention false "#build-bot" (wfBody "hi" "U1") (Except.ok "S")
        ⟨none, some "network down", none, none, none⟩).1 = 0 ∧
    logErrorsOf (handle_mention false "#build-bot" (wfBody "hi" "U1") (Except.ok "S")
        ⟨none, some "network down", none, none, none⟩).1 = [] :=
  ⟨rfl, rfl, rfl⟩

/-- Claim C1 as amended: with the halt flag clear and a well-formed event, if
the acknowledgment send succeeds (its failure propagates uncaught — the
`try` block starts after it) and the error-notification send succeeds, then
any failure of the guarded steps (agent invocation, artifact write, upload)
is caught: the handler returns normally, with exactly one user-visible error
message and one error log when some guarded step failed and none otherwise,
and the event is never silently dropped — it ends in an upload or in an
error message. -/
theorem claim_C1_amended (ch text user : String) (agent : Except String String)
    (fm : FailureModel) (hack : fm.ackSayRaises = none)
    (herr : fm.errSayRaises = none) :
    (handle_mention false ch (wfBody text user) agent fm).2 = Outcome.returned ∧
    countErrSays (handle_mention false ch (wfBody text user) agent fm).1
      = (if (firstFailure agent fm).isSome then 1 else 0) ∧
    (logErrorsOf (handle_mention false ch (wfBody text user) agent fm).1).length
      = (if (firstFailure agent fm).isSome then 1 else 0) ∧
    (uploadsOf (handle_mention false ch (wfBody text user) agent fm).1 ≠ [] ∨
      countErrSays (handle_mention false ch (wfBody text user) agent fm).1 = 1) := by
  obtain ⟨h1, a1, w1, u1, e1⟩ := fm
  simp only at hack herr
  subst hack herr
  cases agent <;> cases w1 <;> cases u1 <;>
    simp [handle_mention, exceptBranch, wfBody, firstFailure,
      countErrSays, saysOf, logErrorsOf, uploadsOf]

/-- Witness for the amended claim C1 at a concrete event whose agent call
fails. -/
theorem claim_C1_amended_witness :
    (handle_mention false "#build-bot" (wfBody "hi" "U1") (Except.error "boom")
        noFailures).2 = Outcome.returned ∧
    countErrSays (handle_mention false "#build-bot" (wfBody "hi" "U1")
        (Except.error "boom") noFailures).1
      = (if (firstFailure (Except.error "boom") noFailures).isSome then 1 else 0) ∧
    (logErrorsOf (handle_mention false "#build-bot" (wfBody "hi" "U1")
        (Except.error "boom") noFailures).1).length
      = (if (firstFailure (Except.error "boom") noFailures).isSome then 1 else 0) ∧
    (uploadsOf (handle_mention false "#build-bot" (wfBody "hi" "U1")
        (Except.error "boom") noFailures).1 ≠ [] ∨
      countErrSays (handle_mention false "#build-bot" (wfBody "hi" "U1")
        (Except.error "boom") noFailures).1 = 1) :=
  claim_C1_amended "#build-bot" "hi" "U1" (Except.error "boom") noFailures rfl rfl

/-- Claim C5, failing behaviour: the handler never removes the temporary
file — `NamedTemporaryFile` is opened with `delete=False` and nothing unlinks
it — so no removal happens on any path, in particular not after the fully
successful concrete run shown. -/
theorem claim_C5_no_cleanup :
    (handle_mention false "#build-bot" (wfBody "hi" "U1") (Except.ok "S") noFailures).1
      = [Effect.say (ackMsgOf "U1"), Effect.agentCall "hi" 4, Effect.tmpWrite "S",
         Effect.upload "#build-bot" "S" "spec.md" uploadComment,
         Effect.logInfo "spec.md uploaded."] ∧
    tmpDeletesOf (handle_mention false "#build-bot" (wfBody "hi" "U1")
        (Except.ok "S") noFailures).1 = [] ∧
    (∀ (HALT : Bool) (ch : String) (body : Body) (agent : Except String String)
        (fm : FailureModel),
      tmpDeletesOf (handle_mention HALT ch body agent fm).1 = []) := by
  refine ⟨rfl, rfl, fun HALT ch body agent fm => ?_⟩
  obtain ⟨h1, a1, w1, u1, e1⟩ := fm
  cases HALT <;> cases h1 <;>
    obtain ⟨ev⟩ := body <;> cases ev with
    | none => simp [handle_mention, tmpDeletesOf]
    | some ev =>
      obtain ⟨t, u⟩ := ev
      cases t <;> cases u <;> cases a1 <;> cases agent <;> cases w1 <;> cases u1 <;>
        cases e1 <;> simp [handle_mention, exceptBranch, tmpDeletesOf]

/-- Claim C7: a missing required token or secret makes startup fail before
any event is handled, while the channel defaults to "#build-bot" and the
halt flag defaults to false when their variables are absent. -/
theorem claim_C7 (env : Env) (events : List EventIn) :
    ((env.SLACK_BOT_TOKEN = none ∨ env.SLACK_APP_TOKEN = none ∨
        env.SLACK_SIGNING_SECRET = none) →
      ∃ k, runProcess env events = Except.error (Exc.keyError k)) ∧
    (∀ cfg, startupConfig env = Except.ok cfg →
      (env.BUILD_BOT_CHANNEL = none → cfg.channel = "#build-bot") ∧
      (env.HALT_PIPELINE = none → cfg.halt = false)) := by
  obtain ⟨bot, app, sec, chan, hp⟩ := env
  constructor
  · rintro (h | h | h) <;> subst h
    · exact ⟨"SLACK_BOT_TOKEN", rfl⟩
    · cases bot with
      | none => exact ⟨"SLACK_BOT_TOKEN", rfl⟩
      | some b => exact ⟨"SLACK_APP_TOKEN", rfl⟩
    · cases bot with
      | none => exact ⟨"SLACK_BOT_TOKEN", rfl⟩
      | some b =>
        cases app with
        | none => exact ⟨"SLACK_APP_TOKEN", rfl⟩
        | some a => exact ⟨"SLACK_SIGNING_SECRET", rfl⟩
  · intro cfg hcfg
    cases bot with
    | none => exact absurd hcfg (by simp [startupConfig])
    | some bot =>
      cases app with
      | none => exact absurd hcfg (by simp [startupConfig])
      | some app =>
        cases sec with
        | none => exact absurd hcfg (by simp [startupConfig])
        | some sec =>
          simp only [startupConfig, Except.ok.injEq] at hcfg
          subst hcfg
          constructor
          · intro h; subst h; rfl
          · intro h; subst h; rfl

/-- Witness for claim C7: a run with the bot token absent fails at startup,
and with all required variables present the optional ones take their
defaults. -/
theorem claim_C7_witness :
    (∃ k, runProcess ⟨none, some "a", some "s", none, none⟩ []
        = Except.error (Exc.keyError k)) ∧
    ((Config.mk "b" "a" "s" "#build-bot" false).channel = "#build-bot" ∧
      (Config.mk "b" "a" "s" "#build-bot" false).halt = false) :=
  ⟨(claim_C7 ⟨none, some "a", some "s", none, none⟩ []).1 (Or.inl rfl),
   ((claim_C7 ⟨some "b", some "a", some "s", none, none⟩ []).2
     (Config.mk "b" "a" "s" "#build-bot" false) rfl).1 rfl,
   ((claim_C7 ⟨some "b", some "a", some "s", none, none⟩ []).2
     (Config.mk "b" "a" "s" "#build-bot" false) rfl).2 rfl⟩

/-- Claim C8: a run of two events with identical content (halt clear, agent
succeeding with the same summary) is the two-element run of one and the same
per-event result — each invocation is an independent, identical computation —
and each of the two results carries its own single upload of the summary. -/
theorem claim_C8 (bot app sec ch text user s : String) :
    processRun (Config.mk bot app sec ch false)
        [⟨wfBody text user, Except.ok s, noFailures⟩,
         ⟨wfBody text user, Except.ok s, noFailures⟩]
      = [handle_mention false ch (wfBody text user) (Except.ok s) noFailures,
         handle_mention false ch (wfBody text user) (Except.ok s) noFailures] ∧
    processRun (Config.mk bot app sec ch false)
        [⟨wfBody text user, Except.ok s, noFailures⟩,
         ⟨wfBody text user, Except.ok s, noFailures⟩]
      = processRun (Config.mk bot app sec ch false)
          [⟨wfBody text user, Except.ok s, noFailures⟩]
        ++ processRun (Config.mk bot app sec ch false)
          [⟨wfBody text user, Except.ok s, noFailures⟩] ∧
    uploadsOf (handle_mention false ch (wfBody text user) (Except.ok s) noFailures).1
      = [(ch, s, "spec.md", uploadComment)] :=
  ⟨rfl, rfl, rfl⟩

/-- Claim C9: in a process run every handled event is computed from the one
configuration fixed at startup, so each of them observes the same halt flag:
the i-th result is the handler applied at `cfg.halt`, and it contains the
halt advisory exactly when that flag is set. -/
theorem claim_C9 (cfg : Config) (events : List EventIn) (i : Nat) (ei : EventIn)
    (hi : events[i]? = some ei) :
    ∃ r, (processRun cfg events)[i]? = some r ∧
      r = handle_mention cfg.halt cfg.channel ei.body ei.agent ei.fm ∧
      countHaltSays r.1 = (if cfg.halt then 1 else 0) := by
  refine ⟨handle_mention cfg.halt cfg.channel ei.body ei.agent ei.fm, ?_, rfl, ?_⟩
  · simp [processRun, List.getElem?_map, hi]
  · obtain ⟨b, agent, fm⟩ := ei
    obtain ⟨h1, a1, w1, u1, e1⟩ := fm
    obtain ⟨ev⟩ := b
    cases hh : cfg.halt <;> cases h1 <;> simp only
    all_goals
      cases ev with
      | none => simp [handle_mention, countHaltSays, saysOf]
      | some ev =>
        obtain ⟨t, u⟩ := ev
        cases t <;> cases u <;> cases a1 <;> cases agent <;> cases w1 <;> cases u1 <;>
          cases e1 <;>
            simp [handle_mention, exceptBranch, countHaltSays, saysOf]

/-- Witness for claim C9 at a one-event run with the halt flag clear. -/
theorem claim_C9_witness :
    ∃ r, (processRun (Config.mk "b" "a" "s" "#c" false)
        [⟨wfBody "hi" "U1", Except.ok "S", noFailures⟩])[0]? = some r ∧
      r = handle_mention false "#c" (wfBody "hi" "U1") (Except.ok "S") noFailures ∧
      countHaltSays r.1 = (if false then 1 else 0) :=
  claim_C9 (Config.mk "b" "a" "s" "#c" false)
    [⟨wfBody "hi" "U1", Except.ok "S", noFailures⟩] 0
    ⟨wfBody "hi" "U1", Except.ok "S", noFailures⟩ rfl

/-- Claim C10: with the halt flag clear, a payload missing the "event"
object or its "text" or "user" key makes the handler raise an uncaught
KeyError before issuing any external call: the trace is empty, so no
acknowledgment and no error notification is sent. -/
theorem claim_C10 (ch : String) (agent : Except String String) (fm : FailureModel)
    (body : Body)
    (hbad : body.event = none ∨
      ∃ ev, body.event = some ev ∧ (ev.text = none ∨ ev.user = none)) :
    ∃ k, handle_mention false ch body agent fm
      = ([], Outcome.raised (Exc.keyError k)) := by
  obtain ⟨e⟩ := body
  cases e with
  | none => exact ⟨"event", rfl⟩
  | some ev =>
    obtain ⟨t, u⟩ := ev
    cases t with
    | none => exact ⟨"text", rfl⟩
    | some t =>
      cases u with
      | none => exact ⟨"user", rfl⟩
      | some u =>
        exfalso
        rcases hbad with h | ⟨ev', hev, h | h⟩
        · exact Option.noConfusion h
        · rw [show ev' = ⟨some t, some u⟩ from (Option.some.inj hev).symm] at h
          exact Option.noConfusion h
        · rw [show ev' = ⟨some t, some u⟩ from (Option.some.inj hev).symm] at h
          exact Option.noConfusion h

/-- Witness for claim C10 at a payload with no "event" object. -/
theorem claim_C10_witness :
    ∃ k, handle_mention false "#build-bot" ⟨none⟩ (Except.ok "S") noFailures
      = ([], Outcome.raised (Exc.keyError k)) :=
  claim_C10 "#build-bot" (Except.ok "S") noFailures ⟨none⟩ (Or.inl rfl)
